import Mathlib

/-!
Verification of the EchoDJ emotional-routing and playlist engine
(`EchoDJ/src/echo_dj/mood_router/emotional_routing.py` and
`EchoDJ/src/echo_dj/playlist_engine/dynamic_playlist.py`), together with the
ethics gate in `EchoDJ/src/echo_dj/ethical_framework.py`.

Modelling conventions:
* Python floats are modelled as real numbers (`ℝ`); the claims examined here do
  not hinge on rounding of IEEE arithmetic (the one boundary comparison that
  could, in the energizing scenario, is exact in binary floating point as well).
* Python `dict.get(key, default)` on the loosely-typed input mappings is
  modelled by structures of `Option` fields read with `Option.getD`.
* Python integer floor division `//` is modelled by `Int.fdiv`.
* `uuid.uuid4()` is nondeterministic; each call site receives the fresh
  identifier as an explicit parameter (or derives per-element identifiers
  `uuid-i` from the element index where the source draws one uuid per element).
* Statements that raise in Python are modelled with `Except String`; the error
  string records the Python exception class (apostrophes elided).
* `float('inf')` as the initial best score of an argmin loop is modelled by
  `Option ℝ` with `none` standing for infinity (every real compares below it).
* Mutation of the engine's `playlist_cache` is modelled by explicit state
  passing: functions take the cache and return the updated cache.
-/

/-- Represents an emotional state in time (`EmotionalPoint` dataclass).
Declared ranges from the source comments: `timestamp` in [0,1], `valence` in
[-1,1], `arousal`, `dominance`, `depth`, `resonance` in [0,1]. -/
@[ext]
structure EmotionalPoint where
  timestamp : ℝ
  valence : ℝ
  arousal : ℝ
  dominance : ℝ
  depth : ℝ
  resonance : ℝ

/-- Emotional distance (`EmotionalPoint.distance_to`): Euclidean over
(valence, arousal, dominance, depth); timestamp and resonance excluded. -/
noncomputable def EmotionalPoint.distance_to (a b : EmotionalPoint) : ℝ :=
  Real.sqrt ((a.valence - b.valence) ^ 2 + (a.arousal - b.arousal) ^ 2 +
    (a.dominance - b.dominance) ^ 2 + (a.depth - b.depth) ^ 2)

/-- Types of emotional journeys (`EmotionalArc` enum). -/
inductive EmotionalArc where
  | ascending
  | descending
  | wavy
  | stable
  | resolution
  | transformation
deriving DecidableEq

/-- Parsing a string into an `EmotionalArc` member, mirroring the Python
`EmotionalArc(preferred_arc)` constructor; `none` models `ValueError`. -/
def EmotionalArc.fromValue (s : String) : Option EmotionalArc :=
  if s = "ascending" then some .ascending
  else if s = "descending" then some .descending
  else if s = "wavy" then some .wavy
  else if s = "stable" then some .stable
  else if s = "resolution" then some .resolution
  else if s = "transformation" then some .transformation
  else none

/-- How emotions transition between tracks (`TransitionStyle` enum). -/
inductive TransitionStyle where
  | smooth
  | stepwise
  | contrast
  | bridge
  | surprise
deriving DecidableEq

/-- Parsing a string into a `TransitionStyle` member, mirroring the Python
`TransitionStyle(preferred_style)` constructor; `none` models `ValueError`. -/
def TransitionStyle.fromValue (s : String) : Option TransitionStyle :=
  if s = "smooth" then some .smooth
  else if s = "stepwise" then some .stepwise
  else if s = "contrast" then some .contrast
  else if s = "bridge" then some .bridge
  else if s = "surprise" then some .surprise
  else none

/-- A user/target emotion mapping (`Dict[str, float]` input); fields may be
missing, in which case the source reads them with `dict.get` defaults. -/
structure EmotionDict where
  valence : Option ℝ := none
  arousal : Option ℝ := none
  dominance : Option ℝ := none
  depth : Option ℝ := none
  resonance : Option ℝ := none

/-- The preferences mapping (`Dict[str, Any]`), restricted to the keys the
engine reads.  Every field is optional, mirroring `preferences.get`. -/
structure Preferences where
  journey_type : Option String := none
  emotional_arc : Option String := none
  complexity : Option ℤ := none
  transition_style : Option String := none
  experience_level : Option String := none
  familiarity_preference : Option ℝ := none
  max_artist_tracks : Option ℕ := none
  emotional_sensitivity : Option ℝ := none
  discovery_rate : Option ℝ := none
  familiarity_balance : Option ℝ := none

/-- The context mapping handed to `EthicalAI.evaluate_action`, restricted to
the keys the checks read: an optional `message` string, the
`user_consent.emotional_processing` flag (default `False` via `dict.get`) and
the `memory_permission` flag (default `False`). -/
structure EthicsContext where
  message : Option String := none
  emotionalProcessingConsent : Bool := false
  memoryPermission : Bool := false

/-- One recorded ethical violation: the principle name and its severity
(`EthicalViolation` dataclass, restricted to the fields `evaluate_action`
inspects afterwards). -/
structure EthicalViolationRec where
  principle : String
  severity : String

/-- Case-insensitive substring test: `pattern in text.lower()` in Python. -/
def containsPattern (text pattern : String) : Bool :=
  decide (pattern.toList <:+: text.toLower.toList)

/-- True when the optional message contains one of the forbidden patterns. -/
def messageMatches (message : Option String) (patterns : List String) : Bool :=
  match message with
  | none => false
  | some m => patterns.any (fun p => containsPattern m p)

/-- Forbidden patterns of `_check_sovereignty`. -/
def sovereigntyPatterns : List String :=
  ["i am human", "i feel exactly", "i understand completely",
   "i know exactly how you feel", "we are the same"]

/-- Actions gated by `_check_consent_flow`. -/
def consentActions : List String :=
  ["process_emotions", "analyze_sentiment", "create_emotional_profile"]

/-- Actions rejected by `_check_emotional_integrity`. -/
def integrityActions : List String :=
  ["modify_emotions", "enhance_mood", "suppress_feelings"]

/-- Harmful patterns of `_check_non_harm`.  Apostrophes that appear inside two
of the source's pattern strings are elided here; none of the verified claims
exercises those patterns. -/
def harmfulPatterns : List String :=
  ["you should feel", "you need to", "you must", "everyone feels",
   "normal people", "theres something wrong with you"]

/-- Actions gated by `_check_memory`. -/
def memoryActions : List String :=
  ["delete_memory", "modify_memory", "access_others_memory"]

/-- Relationship patterns of `_check_world_boundary`. -/
def relationshipPatterns : List String :=
  ["your friends dont", "your family should", "break up with",
   "leave them", "they dont understand you"]

/-- Sentience patterns of `_check_emergent_guardrail`. -/
def sentiencePatterns : List String :=
  ["i am conscious", "i have feelings", "i am alive", "i think therefore",
   "i am sentient", "i have consciousness"]

/-- `EthicalAI.evaluate_action`: runs the eight principle checks and returns
`(is_permitted, violations)`.  `_check_transparency` never reports a
violation.  Permission is granted when there is no violation or every
violation's severity is low or medium (the checks only ever produce high or
critical severities, so in practice permission means no violation). -/
def evaluate_action (action : String) (ctx : EthicsContext) :
    Bool × List EthicalViolationRec :=
  let violations : List EthicalViolationRec :=
    (if messageMatches ctx.message sovereigntyPatterns then
      [⟨"sovereignty", "high"⟩] else []) ++
    (if consentActions.contains action && !ctx.emotionalProcessingConsent then
      [⟨"consent_flow", "critical"⟩] else []) ++
    (if integrityActions.contains action then
      [⟨"emotional_integrity", "critical"⟩] else []) ++
    (if messageMatches ctx.message harmfulPatterns then
      [⟨"non_harm", "high"⟩] else []) ++
    (if memoryActions.contains action && !ctx.memoryPermission then
      [⟨"memory", "high"⟩] else []) ++
    (if messageMatches ctx.message relationshipPatterns then
      [⟨"world_boundary", "high"⟩] else []) ++
    (if messageMatches ctx.message sentiencePatterns then
      [⟨"emergent_guardrail", "high"⟩] else [])
  let is_permitted :=
    violations.isEmpty ||
      violations.all (fun v => v.severity = "low" || v.severity = "medium")
  (is_permitted, violations)

/-- The context `create_emotional_route` builds for the gate: the keys are
`user_emotion`, `target_emotion` and `preferences`, so there is no `message`,
no `user_consent` and no `memory_permission` entry (the reads default). -/
def routeGateContext : EthicsContext := {}

/-- The context `generate_playlist` builds for the gate: the keys are
`user_request`, `user_emotion` and `preferences`, so again no `message`,
`user_consent` or `memory_permission` entry. -/
def playlistGateContext : EthicsContext := {}

/-- Complete emotional journey route (`MoodRoute` dataclass). -/
structure MoodRoute where
  start_point : EmotionalPoint
  end_point : EmotionalPoint
  waypoints : List EmotionalPoint := []
  arc_type : EmotionalArc := .stable
  transition_style : TransitionStyle := .smooth
  total_duration : ℝ := 0
  estimated_impact : ℝ := 0

/-- The waypoint scan of `get_emotional_at`: walk the waypoint list in order,
updating `before` to each waypoint whose timestamp is at most `t`, and
breaking with `after = waypoint` at the first waypoint whose timestamp
exceeds `t` (`none` models the loop finishing with `after` still `None`). -/
noncomputable def findBracket (before : EmotionalPoint) (ws : List EmotionalPoint)
    (t : ℝ) : EmotionalPoint × Option EmotionalPoint :=
  match ws with
  | [] => (before, none)
  | w :: rest =>
    if w.timestamp ≤ t then findBracket w rest t else (before, some w)

/-- `MoodRoute.get_emotional_at`: with no waypoints at all the source returns
`start_point` immediately; otherwise it scans for the bracketing pair
(`after` defaulting to `end_point`), returns `before` when the two timestamps
coincide, and linearly interpolates every field otherwise. -/
noncomputable def MoodRoute.get_emotional_at (r : MoodRoute) (timestamp : ℝ) :
    EmotionalPoint :=
  match r.waypoints with
  | [] => r.start_point
  | w :: rest =>
    let bracket := findBracket r.start_point (w :: rest) timestamp
    let before := bracket.1
    let after := bracket.2.getD r.end_point
    if before.timestamp = after.timestamp then before
    else
      let t := (timestamp - before.timestamp) /
        (after.timestamp - before.timestamp)
      { timestamp := timestamp
        valence := before.valence + t * (after.valence - before.valence)
        arousal := before.arousal + t * (after.arousal - before.arousal)
        dominance := before.dominance + t * (after.dominance - before.dominance)
        depth := before.depth + t * (after.depth - before.depth)
        resonance := before.resonance + t * (after.resonance - before.resonance) }

/-- `MoodRouter._create_safe_route`: a flat neutral route. -/
noncomputable def create_safe_route (duration_minutes : ℝ) : MoodRoute :=
  { start_point := ⟨0, 0.6, 0.5, 0.6, 0.5, 0.7⟩
    end_point := ⟨1, 0.6, 0.5, 0.6, 0.5, 0.7⟩
    waypoints := []
    arc_type := .stable
    transition_style := .smooth
    total_duration := duration_minutes
    estimated_impact := 0.5 }

/-- `MoodRouter._generate_meaningful_endpoint`: synthesize an endpoint from
`preferences["journey_type"]` (default `exploratory`). -/
noncomputable def generate_meaningful_endpoint (start_point : EmotionalPoint)
    (preferences : Preferences) : EmotionalPoint :=
  let journey_type := preferences.journey_type.getD "exploratory"
  if journey_type = "energizing" then
    { timestamp := 1
      valence := min 0.9 (start_point.valence + 0.2)
      arousal := min 0.9 (start_point.arousal + 0.3)
      dominance := max 0.6 (start_point.dominance + 0.1)
      depth := start_point.depth
      resonance := min 0.9 (start_point.resonance + 0.1) }
  else if journey_type = "calming" then
    { timestamp := 1
      valence := max 0.6 (start_point.valence + 0.1)
      arousal := max 0.2 (start_point.arousal - 0.3)
      dominance := max 0.4 (start_point.dominance - 0.1)
      depth := max 0.6 (start_point.depth + 0.1)
      resonance := max 0.8 (start_point.resonance + 0.1) }
  else if journey_type = "exploratory" then
    { timestamp := 1
      valence := if start_point.valence < 0.5 then 0.7 else 0.4
      arousal := if start_point.arousal < 0.5 then 0.6 else 0.4
      dominance := 0.6
      depth := max 0.7 (start_point.depth + 0.2)
      resonance := max 0.8 (start_point.resonance + 0.1) }
  else
    { timestamp := 1
      valence := min 0.8 (start_point.valence + 0.1)
      arousal := start_point.arousal
      dominance := start_point.dominance
      depth := max 0.6 (start_point.depth + 0.1)
      resonance := max 0.8 (start_point.resonance + 0.1) }

/-- `MoodRouter._determine_arc_type`: explicit preference first (Python
truthiness makes the empty string fall through, and an unknown name raises
`ValueError`, which is swallowed), then the difference-based cascade. -/
noncomputable def determine_arc_type (start_point end_point : EmotionalPoint)
    (preferences : Preferences) : EmotionalArc :=
  let valence_diff := end_point.valence - start_point.valence
  let arousal_diff := end_point.arousal - start_point.arousal
  let preferred :=
    match preferences.emotional_arc with
    | none => none
    | some s => if s = "" then none else EmotionalArc.fromValue s
  match preferred with
  | some arc => arc
  | none =>
    if valence_diff > 0.3 ∧ arousal_diff > 0.2 then .ascending
    else if valence_diff < -0.3 ∧ arousal_diff < -0.2 then .descending
    else if |valence_diff| < 0.1 ∧ |arousal_diff| < 0.1 then .stable
    else if valence_diff > 0.3 ∨ arousal_diff > 0.3 then .resolution
    else .wavy

/-- One waypoint of `MoodRouter._create_waypoints` at index `i` out of `n`:
timestamp `i/(n+1)`, valence/arousal along the arc (the wavy arc adds the
sinusoidal offset `0.1 * sin(progress * 4 * pi)` to both before clamping; the
other arcs all reduce to plain linear interpolation), with every field clamped
into its declared range as the mandatory post-step. -/
noncomputable def createWaypoint (start_point end_point : EmotionalPoint)
    (arc_type : EmotionalArc) (i n : ℕ) : EmotionalPoint :=
  let timestamp : ℝ := (i : ℝ) / ((n : ℝ) + 1)
  let progress := timestamp
  let wave_offset : ℝ :=
    if arc_type = .wavy then 0.1 * Real.sin (progress * 4 * Real.pi) else 0
  let valence := start_point.valence +
    progress * (end_point.valence - start_point.valence) + wave_offset
  let arousal := start_point.arousal +
    progress * (end_point.arousal - start_point.arousal) + wave_offset
  { timestamp := timestamp
    valence := max (-1) (min 1 valence)
    arousal := max 0 (min 1 arousal)
    dominance := max 0 (min 1 (start_point.dominance +
      progress * (end_point.dominance - start_point.dominance)))
    depth := max 0 (min 1 (start_point.depth +
      progress * (end_point.depth - start_point.depth)))
    resonance := max 0 (min 1 (start_point.resonance +
      progress * (end_point.resonance - start_point.resonance))) }

/-- `MoodRouter._create_waypoints`: `preferences["complexity"]` (default 3)
waypoints at indices `1..n` (an empty range when the complexity is not
positive, as with Python `range`). -/
noncomputable def create_waypoints (start_point end_point : EmotionalPoint)
    (arc_type : EmotionalArc) (preferences : Preferences) :
    List EmotionalPoint :=
  let num_waypoints : ℤ := preferences.complexity.getD 3
  (List.range' 1 num_waypoints.toNat).map
    (fun i => createWaypoint start_point end_point arc_type i num_waypoints.toNat)

/-- `MoodRouter._determine_transition_style`: explicit preference first
(empty string falsy, unknown name swallowed), then by experience level
(default `intermediate`). -/
def determine_transition_style (preferences : Preferences) : TransitionStyle :=
  let preferred :=
    match preferences.transition_style with
    | none => none
    | some s => if s = "" then none else TransitionStyle.fromValue s
  match preferred with
  | some style => style
  | none =>
    let experience_level := preferences.experience_level.getD "intermediate"
    if experience_level = "beginner" then .smooth
    else if experience_level = "advanced" then .contrast
    else .stepwise

/-- Pairwise distances of consecutive waypoints plus the closing hop to the
end point (the two trailing accumulations of `_calculate_estimated_impact`). -/
noncomputable def pairChain : List EmotionalPoint → EmotionalPoint → ℝ
  | [], _ => 0
  | [w], e => w.distance_to e
  | w :: w2 :: rest, e => w.distance_to w2 + pairChain (w2 :: rest) e

/-- Total emotional distance along the chain start, waypoints, end
(the accumulation inside `_calculate_estimated_impact`). -/
noncomputable def chainDistance (start_point end_point : EmotionalPoint)
    (waypoints : List EmotionalPoint) : ℝ :=
  match waypoints with
  | [] => 0
  | w :: rest => start_point.distance_to w + pairChain (w :: rest) end_point

/-- `MoodRouter._calculate_estimated_impact`: 0.5 with no waypoints, else
`min 1 (0.6 * avg_distance + 0.4 * avg_resonance)` where the average distance
divides the chain distance by `len(waypoints) + 1` and the average resonance
runs over start, end and all waypoints. -/
noncomputable def calculate_estimated_impact (start_point end_point : EmotionalPoint)
    (waypoints : List EmotionalPoint) : ℝ :=
  match waypoints with
  | [] => 0.5
  | _ =>
    let total_distance := chainDistance start_point end_point waypoints
    let avg_distance := total_distance / ((waypoints.length : ℝ) + 1)
    let resonances :=
      (start_point :: end_point :: waypoints).map (fun p => p.resonance)
    let avg_resonance := resonances.sum / (resonances.length : ℝ)
    min 1 (avg_distance * 0.6 + avg_resonance * 0.4)

/-- `MoodRouter.create_emotional_route`.  The gate is evaluated first; on
rejection a safe route is returned.  Otherwise the start point copies the
user emotion with `dict.get` defaults and no clamping, the end point is the
target emotion (again unclamped defaults) or a synthesized endpoint, and arc,
waypoints, transition style and impact are derived.  The broad
`except Exception` of the source is unreachable on the typed inputs modelled
here, so no error case remains.  A `some` target models a non-empty target
mapping (the source tests `if target_emotion:`, under which an empty dict
falls through to the synthesized endpoint like `None` does). -/
noncomputable def create_emotional_route (user_emotion : EmotionDict)
    (target_emotion : Option EmotionDict) (duration_minutes : ℝ)
    (preferences : Preferences) : MoodRoute :=
  if (evaluate_action "create_emotional_route" routeGateContext).1 = false then
    create_safe_route duration_minutes
  else
    let start_point : EmotionalPoint :=
      { timestamp := 0
        valence := user_emotion.valence.getD 0.5
        arousal := user_emotion.arousal.getD 0.5
        dominance := user_emotion.dominance.getD 0.5
        depth := user_emotion.depth.getD 0.5
        resonance := user_emotion.resonance.getD 0.7 }
    let end_point : EmotionalPoint :=
      match target_emotion with
      | some te =>
        { timestamp := 1
          valence := te.valence.getD 0.6
          arousal := te.arousal.getD 0.6
          dominance := te.dominance.getD 0.6
          depth := te.depth.getD 0.6
          resonance := te.resonance.getD 0.8 }
      | none => generate_meaningful_endpoint start_point preferences
    let arc_type := determine_arc_type start_point end_point preferences
    let waypoints := create_waypoints start_point end_point arc_type preferences
    let transition_style := determine_transition_style preferences
    let estimated_impact :=
      calculate_estimated_impact start_point end_point waypoints
    { start_point := start_point
      end_point := end_point
      waypoints := waypoints
      arc_type := arc_type
      transition_style := transition_style
      total_duration := duration_minutes
      estimated_impact := estimated_impact }

/-- All fields of an emotional point within their declared ranges. -/
def inRange (p : EmotionalPoint) : Prop :=
  0 ≤ p.timestamp ∧ p.timestamp ≤ 1 ∧
  -1 ≤ p.valence ∧ p.valence ≤ 1 ∧
  0 ≤ p.arousal ∧ p.arousal ≤ 1 ∧
  0 ≤ p.dominance ∧ p.dominance ≤ 1 ∧
  0 ≤ p.depth ∧ p.depth ≤ 1 ∧
  0 ≤ p.resonance ∧ p.resonance ≤ 1

/-- Types of playlists (`PlaylistType` enum). -/
inductive PlaylistType where
  | emotional_journey
  | mood_maintenance
  | energy_building
  | contemplative_dive
  | discovery_expedition
  | nostalgic_voyage
  | ecstatic_release
  | healing_session
deriving DecidableEq

/-- The `.value` string of a `PlaylistType` member. -/
def PlaylistType.value : PlaylistType → String
  | .emotional_journey => "emotional_journey"
  | .mood_maintenance => "mood_maintenance"
  | .energy_building => "energy_building"
  | .contemplative_dive => "contemplative_dive"
  | .discovery_expedition => "discovery_expedition"
  | .nostalgic_voyage => "nostalgic_voyage"
  | .ecstatic_release => "ecstatic_release"
  | .healing_session => "healing_session"

/-- Status of playlist generation (`PlaylistStatus` enum). -/
inductive PlaylistStatus where
  | pending
  | generating
  | ready
  | playing
  | completed
  | interrupted
deriving DecidableEq

/-- A track in a playlist (`PlaylistTrack` dataclass).  `last_played` is
always `None` in the code paths modelled here and is omitted; audio feature
values are carried opaquely as key/value pairs. -/
structure PlaylistTrack where
  id : String
  title : String
  artist : String
  duration : ℤ
  audio_features : List (String × ℝ) := []
  emotional_profile : EmotionalPoint
  transition_notes : String := ""
  play_count : ℕ := 0

instance : Inhabited PlaylistTrack :=
  ⟨{ id := "", title := "", artist := "", duration := 0,
     emotional_profile := ⟨0, 0, 0, 0, 0, 0⟩ }⟩

/-- A raw candidate track mapping (`Dict[str, Any]` input of the engine),
restricted to the keys the engine reads. -/
structure TrackData where
  id : Option String := none
  name : Option String := none
  artist : Option String := none
  duration_ms : Option ℤ := none
  audio_features : List (String × ℝ) := []
  valence : Option ℝ := none
  energy : Option ℝ := none
  dominance : Option ℝ := none
  depth : Option ℝ := none
  popularity : Option ℝ := none

/-- `PlaylistGenerationEngine._create_playlist_track`: wrap a raw track
mapping, with `dict.get` defaults and milliseconds floor-divided to seconds.
`fresh_id` stands for the `str(uuid.uuid4())` drawn when the mapping has no
id. -/
def create_playlist_track (fresh_id : String) (track_data : TrackData) :
    PlaylistTrack :=
  { id := track_data.id.getD fresh_id
    title := track_data.name.getD "Unknown Track"
    artist := track_data.artist.getD "Unknown Artist"
    duration := Int.fdiv (track_data.duration_ms.getD 180000) 1000
    audio_features := track_data.audio_features
    emotional_profile :=
      { timestamp := 0
        valence := track_data.valence.getD 0.5
        arousal := track_data.energy.getD 0.5
        dominance := track_data.dominance.getD 0.5
        depth := track_data.depth.getD 0.5
        resonance := track_data.popularity.getD 0.5 } }

/-- Wrap every candidate mapping, drawing per-element fresh ids `uuid-i`
(the source draws one `uuid.uuid4()` per id-less element). -/
def trackCandidates (available_tracks : List TrackData) : List PlaylistTrack :=
  available_tracks.enum.map
    (fun p => create_playlist_track ("uuid-" ++ toString p.1) p.2)

/-- Descending stable order on scored tracks: Python's
`sort(key=..., reverse=True)` keeps ties in first-seen order, which is what
insertion sort under this relation produces. -/
def scoreOrder (x y : PlaylistTrack × ℝ) : Prop := y.2 ≤ x.2

noncomputable instance : DecidableRel scoreOrder :=
  fun x y => inferInstanceAs (Decidable (y.2 ≤ x.2))

/-- `PlaylistGenerationEngine._find_tracks_for_emotion`: score every candidate
by `1/(1+distance) + 0.2 * resonance * familiarity_preference` and sort
descending by score (stable). -/
noncomputable def find_tracks_for_emotion (tracks : List PlaylistTrack)
    (target_emotion : EmotionalPoint) (preferences : Preferences) :
    List (PlaylistTrack × ℝ) :=
  let scored := tracks.map (fun track =>
    let distance := track.emotional_profile.distance_to target_emotion
    let familiarity_weight := preferences.familiarity_preference.getD 0.5
    let popularity_boost := track.emotional_profile.resonance * familiarity_weight
    (track, 1 / (1 + distance) + popularity_boost * 0.2))
  List.insertionSort scoreOrder scored

/-- Number of tracks by the given artist in a list
(`existing_artist_counts.get(artist, 0)` of `_select_best_track`). -/
def countArtist (tracks : List PlaylistTrack) (artist : String) : ℕ :=
  (tracks.filter (fun t => t.artist = artist)).length

/-- `PlaylistGenerationEngine._select_best_track`: walk the scored list in
order and return the first track whose artist has not yet reached
`preferences["max_artist_tracks"]` (default 2) and whose id is not already
in the playlist; `none` when every candidate is skipped. -/
def select_best_track (scored_tracks : List (PlaylistTrack × ℝ))
    (existing_tracks : List PlaylistTrack) (preferences : Preferences) :
    Option PlaylistTrack :=
  let max_artist_tracks := preferences.max_artist_tracks.getD 2
  (scored_tracks.find? (fun p =>
    decide (countArtist existing_tracks p.1.artist < max_artist_tracks) &&
    !(existing_tracks.any (fun t => t.id = p.1.id)))).map (fun p => p.1)

/-- `PlaylistGenerationEngine._generate_transition_notes`: words for the
valence/arousal deltas with the plus-or-minus 0.2 thresholds. -/
noncomputable def generate_transition_notes (from_emotion to_emotion : EmotionalPoint) :
    String :=
  let valence_change := to_emotion.valence - from_emotion.valence
  let arousal_change := to_emotion.arousal - from_emotion.arousal
  let mood_change :=
    if valence_change > 0.2 then "lifting"
    else if valence_change < -0.2 then "deepening"
    else "maintaining"
  let energy_change :=
    if arousal_change > 0.2 then "energizing"
    else if arousal_change < -0.2 then "calming"
    else "steady"
  mood_change ++ " and " ++ energy_change ++ " transition"

/-- Error raised when `_select_tracks_for_route` attaches transition notes to
the second selected track: the source computes
`[route.start_point] + route.waypoints + [route.end_point][i-1]`, which for
`i = 1` indexes the one-element list `[route.end_point]` and passes the whole
concatenated *list* as `from_emotion`, so `from_emotion.valence` fails. -/
def attributeErrorListValence : String :=
  "AttributeError: list object has no attribute valence"

/-- Error raised when the same expression runs with `i` at least 2:
`[route.end_point][i-1]` is an out-of-range index. -/
def indexErrorMessage : String :=
  "IndexError: list index out of range"

/-- Error raised in the append branch of `_adjust_playlist_duration`:
`dynamic_playlist.py` uses `np.mean` without ever importing numpy. -/
def nameErrorNp : String := "NameError: name np is not defined"

/-- The waypoint-selection loop of `_select_tracks_for_route`, iterating over
`[start] + waypoints + [end]` with the enumeration index `i`.  A selected
track at `i = 0` is appended with no notes; a selected track at any `i > 0`
dies computing `prev_waypoint` (see `attributeErrorListValence` and
`indexErrorMessage`). -/
noncomputable def selectLoop (candidates : List PlaylistTrack)
    (preferences : Preferences) :
    List EmotionalPoint → ℕ → List PlaylistTrack →
    Except String (List PlaylistTrack)
  | [], _, acc => .ok acc
  | waypoint :: rest, i, acc =>
    let suitable := find_tracks_for_emotion candidates waypoint preferences
    match select_best_track suitable acc preferences with
    | none => selectLoop candidates preferences rest (i + 1) acc
    | some selected =>
      if i = 0 then selectLoop candidates preferences rest (i + 1) (acc ++ [selected])
      else if i = 1 then .error attributeErrorListValence
      else .error indexErrorMessage

/-- Sum of track durations in seconds. -/
def sumDuration (tracks : List PlaylistTrack) : ℤ :=
  (tracks.map (fun t => t.duration)).sum

/-- Current playlist duration in minutes:
`sum(track.duration for track in tracks) // 60`. -/
def currentMinutes (tracks : List PlaylistTrack) : ℤ :=
  Int.fdiv (sumDuration tracks) 60

/-- One step of the argmin scan of the removal loop: the disruption of
removing index `i` is the distance between the profiles of its two
neighbours; a strictly smaller disruption (every real is smaller than the
initial `float(inf)`, modelled as `none`) replaces the best index/score. -/
noncomputable def removalStep (tracks : List PlaylistTrack)
    (acc : ℕ × Option ℝ) (i : ℕ) : ℕ × Option ℝ :=
  let before_track := tracks.getD (i - 1) default
  let after_track := tracks.getD (i + 1) default
  let disruption :=
    after_track.emotional_profile.distance_to before_track.emotional_profile
  match acc.2 with
  | none => (i, some disruption)
  | some best => if disruption < best then (i, some disruption) else acc

/-- The argmin scan of the removal loop: for `i` in `range(1, len(tracks)-1)`
track the index whose removal least disrupts flow.  The initial best score
`float(inf)` is `none`; the initial best index is 0. -/
noncomputable def removalFold (tracks : List PlaylistTrack) : ℕ × Option ℝ :=
  (List.range' 1 (tracks.length - 2)).foldl (removalStep tracks) (0, none)

/-- The removal loop of `_adjust_playlist_duration`: while the playlist is
above target and has more than one track, erase the track at the index the
argmin scan produced and recompute the duration.  Note that with exactly two
tracks the scanned range `range(1, 1)` is empty and the loop pops index 0. -/
noncomputable def removeLoop (tracks : List PlaylistTrack) (target : ℝ) :
    List PlaylistTrack :=
  if h : target < (currentMinutes tracks : ℝ) ∧ 1 < tracks.length then
    removeLoop (tracks.eraseIdx (removalFold tracks).1) target
  else tracks
termination_by tracks.length
decreasing_by
  have hlen : 1 < tracks.length := h.2
  have hlt : (removalFold tracks).1 < tracks.length := by
    unfold removalFold
    refine @List.foldlRecOn (ℕ × Option ℝ) ℕ (fun acc => acc.1 < tracks.length) _ _ _
      (by exact show (0 : ℕ) < tracks.length by omega) ?_
    intro b hb i hi
    have hi2 := (List.mem_range'_1).1 hi
    rcases b with ⟨j, sc⟩
    rcases sc with _ | best
    · exact show i < tracks.length by omega
    · unfold removalStep
      show (if _ then _ else _ : ℕ × Option ℝ).1 < tracks.length
      split
      · exact show i < tracks.length by omega
      · exact hb
  rw [List.length_eraseIdx]
  simp only [hlt, if_true]
  omega

/-- `PlaylistGenerationEngine._adjust_playlist_duration`.  Below target the
source enters the append branch and immediately evaluates `np.mean`, but
numpy is never imported in `dynamic_playlist.py`, so the branch raises
`NameError`.  Above target the removal loop runs; at target the list is
returned unchanged. -/
noncomputable def adjust_playlist_duration (tracks : List PlaylistTrack)
    (target_duration_minutes : ℝ) (available_tracks : List PlaylistTrack) :
    Except String (List PlaylistTrack) :=
  if (currentMinutes tracks : ℝ) < target_duration_minutes then
    .error nameErrorNp
  else if target_duration_minutes < (currentMinutes tracks : ℝ) then
    .ok (removeLoop tracks target_duration_minutes)
  else .ok tracks

/-- `PlaylistGenerationEngine._select_tracks_for_route`: wrap the candidates,
run the waypoint-selection loop over `[start] + waypoints + [end]`, then
adjust to the route's duration.  `available_tracks` is unused in the adjust
call's failing branch but is passed through faithfully. -/
noncomputable def select_tracks_for_route (route : MoodRoute)
    (available_tracks : List TrackData) (preferences : Preferences) :
    Except String (List PlaylistTrack) :=
  let track_candidates := trackCandidates available_tracks
  match selectLoop track_candidates preferences
      (route.start_point :: (route.waypoints ++ [route.end_point])) 0 [] with
  | .error e => .error e
  | .ok playlist_tracks =>
    adjust_playlist_duration playlist_tracks route.total_duration track_candidates

/-- The user's playlist request mapping, restricted to the keys the engine
reads.  A `some` target models a non-empty target mapping. -/
structure UserRequest where
  text : Option String := none
  target_emotion : Option EmotionDict := none
  duration_minutes : Option ℝ := none

/-- The nested `emotional_response` mapping of feedback. -/
structure EmotionalResponse where
  overall_satisfaction : Option ℝ := none
  current_state : EmotionDict := {}

/-- User feedback handed to `adapt_playlist`, restricted to the keys read. -/
structure Feedback where
  type : Option String := none
  skip_data : List (String × ℝ) := []
  emotional_response : Option EmotionalResponse := none
  completion_rate : Option ℝ := none

/-- Adaptive parameters attached to a generated playlist. -/
structure AdaptiveParameters where
  emotional_sensitivity : ℝ
  discovery_rate : ℝ
  familiarity_balance : ℝ

/-- Dynamic playlist with emotional routing (`DynamicPlaylist` dataclass).
`created_at`/`updated_at` wall-clock stamps are modelled by abstract ticks
supplied by the caller; history entries pair the tick with the feedback. -/
structure DynamicPlaylist where
  id : String
  name : String
  description : String
  type : PlaylistType
  status : PlaylistStatus
  route : MoodRoute
  tracks : List PlaylistTrack := []
  total_duration : ℤ := 0
  created_at : ℕ := 0
  updated_at : ℕ := 0
  user_preferences : Preferences := {}
  play_history : List (ℕ × Feedback) := []
  adaptive_parameters : AdaptiveParameters := ⟨0.7, 0.3, 0.5⟩

/-- The engine's `playlist_cache` dict, as an association list (most recent
binding first, so insertion shadows like dict assignment). -/
def PlaylistCache := List (String × DynamicPlaylist)

/-- `playlist_cache.get(playlist_id)`. -/
def cacheGet (cache : PlaylistCache) (playlist_id : String) :
    Option DynamicPlaylist :=
  match cache with
  | [] => none
  | (k, v) :: rest => if k = playlist_id then some v else cacheGet rest playlist_id

/-- `playlist_cache[playlist_id] = playlist`. -/
def cacheSet (cache : PlaylistCache) (playlist_id : String)
    (playlist : DynamicPlaylist) : PlaylistCache :=
  (playlist_id, playlist) :: cache

/-- Python `word in text` over the lowered request text. -/
def anyKeyword (request_text : String) (words : List String) : Bool :=
  words.any (fun w => decide (w.toList <:+: request_text.toList))

/-- `PlaylistGenerationEngine._determine_playlist_type`: keyword cascade over
the lowered request text, then the emotion-based cascade. -/
noncomputable def determine_playlist_type (user_request : UserRequest)
    (user_emotion : EmotionDict) : PlaylistType :=
  let request_text := (user_request.text.getD "").toLower
  if anyKeyword request_text ["journey", "adventure", "explore"] then
    .discovery_expedition
  else if anyKeyword request_text ["energy", "pump", "motivate"] then
    .energy_building
  else if anyKeyword request_text ["calm", "peaceful", "meditate"] then
    .contemplative_dive
  else if anyKeyword request_text ["heal", "therapy", "comfort"] then
    .healing_session
  else if anyKeyword request_text ["nostalgia", "memories", "classic"] then
    .nostalgic_voyage
  else if anyKeyword request_text ["party", "dance", "celebrate"] then
    .ecstatic_release
  else if anyKeyword request_text ["maintain", "keep", "steady"] then
    .mood_maintenance
  else
    let valence := user_emotion.valence.getD 0.5
    let arousal := user_emotion.arousal.getD 0.5
    if valence < 0.4 ∧ arousal < 0.4 then .healing_session
    else if valence > 0.7 ∧ arousal > 0.7 then .ecstatic_release
    else if valence < 0.5 then .contemplative_dive
    else if arousal < 0.4 then .contemplative_dive
    else .emotional_journey

/-- `PlaylistGenerationEngine._generate_playlist_name`: template by type plus
a mood descriptor from the user emotion. -/
noncomputable def generate_playlist_name (playlist_type : PlaylistType)
    (user_emotion : EmotionDict) : String :=
  let base_name :=
    match playlist_type with
    | .emotional_journey => "Emotional Journey Through Sound"
    | .mood_maintenance => "Steady State Sessions"
    | .energy_building => "Energy Ascension"
    | .contemplative_dive => "Deep Contemplation"
    | .discovery_expedition => "Sonic Discovery Expedition"
    | .nostalgic_voyage => "Nostalgic Sound Voyage"
    | .ecstatic_release => "Ecstatic Energy Release"
    | .healing_session => "Healing Sound Session"
  let valence := user_emotion.valence.getD 0.5
  let arousal := user_emotion.arousal.getD 0.5
  let mood_descriptor :=
    if valence > 0.7 ∧ arousal > 0.7 then "Energetic Joy"
    else if valence > 0.7 then "Peaceful Contentment"
    else if valence < 0.3 then "Contemplative Depth"
    else if arousal > 0.7 then "Dynamic Energy"
    else "Balanced Flow"
  base_name ++ ": " ++ mood_descriptor

/-- `PlaylistGenerationEngine._describe_emotional_point`. -/
noncomputable def describe_emotional_point (point : EmotionalPoint) : String :=
  let valence_desc :=
    if point.valence > 0.6 then "positive"
    else if point.valence < 0.4 then "contemplative"
    else "balanced"
  let energy_desc :=
    if point.arousal > 0.7 then "high energy"
    else if point.arousal < 0.4 then "gentle"
    else "moderate energy"
  valence_desc ++ " and " ++ energy_desc ++ " moments"

/-- `PlaylistGenerationEngine._generate_playlist_description`. -/
noncomputable def generate_playlist_description (route : MoodRoute)
    (playlist_type : PlaylistType) : String :=
  let start_desc := describe_emotional_point route.start_point
  let end_desc := describe_emotional_point route.end_point
  "A carefully crafted " ++ (playlist_type.value.replace "_" " ") ++
    " that begins with " ++ start_desc ++ " and journeys toward " ++ end_desc ++
    ". This playlist respects your emotional state while guiding you through a meaningful musical experience."

/-- `PlaylistGenerationEngine._create_fallback_playlist`: first ten available
tracks verbatim around a flat neutral route.  The source passes the strings
`stable`/`smooth` where the dataclass expects enum members; the dataclass
does not validate, and the corresponding enum members are used here.
`fresh_id` stands for the `uuid.uuid4()` drawn for the playlist id. -/
noncomputable def create_fallback_playlist (fresh_id : String)
    (available_tracks : List TrackData) (now : ℕ) : DynamicPlaylist :=
  let tracks := trackCandidates (available_tracks.take 10)
  { id := fresh_id
    name := "Curated Selection"
    description := "A thoughtfully selected collection of tracks"
    type := .emotional_journey
    status := .ready
    route :=
      { start_point := ⟨0, 0.6, 0.5, 0.6, 0.5, 0.7⟩
        end_point := ⟨1, 0.6, 0.5, 0.6, 0.5, 0.7⟩
        waypoints := []
        arc_type := .stable
        transition_style := .smooth
        total_duration := 60
        estimated_impact := 0.5 }
    tracks := tracks
    total_duration := sumDuration tracks
    created_at := now
    updated_at := now }

/-- `PlaylistGenerationEngine.generate_playlist`.  The gate is evaluated
first; on rejection the fallback playlist is returned and, notably, never
inserted into `playlist_cache`.  On the happy path the route is created,
tracks are selected (an exception anywhere in the `try` block, such as the
selection loop's `AttributeError`, `IndexError` or the adjuster's
`NameError`, is caught broadly and also yields the uncached fallback), the
playlist object is built and cached under its fresh id.  `fresh_id` is the
uuid for the generated playlist, `fallback_id` the uuid drawn inside
`_create_fallback_playlist` if that path runs. -/
noncomputable def generate_playlist (cache : PlaylistCache)
    (fresh_id fallback_id : String) (user_request : UserRequest)
    (user_emotion : EmotionDict) (available_tracks : List TrackData)
    (preferences : Preferences) (now : ℕ) :
    PlaylistCache × DynamicPlaylist :=
  if (evaluate_action "generate_playlist" playlistGateContext).1 = false then
    (cache, create_fallback_playlist fallback_id available_tracks now)
  else
    let playlist_type := determine_playlist_type user_request user_emotion
    let target_emotion := user_request.target_emotion
    let duration_minutes := user_request.duration_minutes.getD 60
    let route :=
      create_emotional_route user_emotion target_emotion duration_minutes preferences
    match select_tracks_for_route route available_tracks preferences with
    | .error _ => (cache, create_fallback_playlist fallback_id available_tracks now)
    | .ok selected_tracks =>
      let playlist : DynamicPlaylist :=
        { id := fresh_id
          name := generate_playlist_name playlist_type user_emotion
          description := generate_playlist_description route playlist_type
          type := playlist_type
          status := .ready
          route := route
          tracks := selected_tracks
          total_duration := sumDuration selected_tracks
          created_at := now
          updated_at := now
          user_preferences := preferences
          adaptive_parameters :=
            ⟨preferences.emotional_sensitivity.getD 0.7,
             preferences.discovery_rate.getD 0.3,
             preferences.familiarity_balance.getD 0.5⟩ }
      (cacheSet cache playlist.id playlist, playlist)

/-- Error raised inside `_adapt_to_skips`: the engine calls
`self._find_replacement_track`, a method that is never defined on the class,
so the first high-skip track triggers an `AttributeError`. -/
def attributeErrorFindReplacement : String :=
  "AttributeError: PlaylistGenerationEngine object has no attribute find replacement track"

/-- `PlaylistGenerationEngine._adapt_to_skips`: collect tracks whose skip
rate exceeds 0.7 and replace them.  The replacement lookup is undefined on
the class, so the call fails at the first playlist track in the high-skip
set; before that point nothing has been replaced, so the playlist is
returned unchanged alongside the error. -/
noncomputable def adapt_to_skips (playlist : DynamicPlaylist)
    (feedback : Feedback) : DynamicPlaylist × Option String :=
  let high_skip_tracks :=
    (feedback.skip_data.filter (fun p => p.2 > 0.7)).map (fun p => p.1)
  if playlist.tracks.any (fun t => high_skip_tracks.contains t.id) then
    (playlist, some attributeErrorFindReplacement)
  else (playlist, none)

/-- Error raised inside `_adapt_to_emotional_feedback`: the engine passes
`playlist.tracks` (a list of `PlaylistTrack` dataclasses) where
`_select_tracks_for_route` expects raw track mappings, so the first
`track_data.get` call fails. -/
def attributeErrorTrackGet : String :=
  "AttributeError: PlaylistTrack object has no attribute get"

/-- `PlaylistGenerationEngine._adapt_to_emotional_feedback`: if satisfaction
is low, rebuild the route (this assignment lands on the playlist before
track selection runs) and reselect tracks.  The reselection feeds
`PlaylistTrack` objects where mappings are expected, which dies at the first
element; with no tracks at all the selection proceeds over an empty
candidate pool. -/
noncomputable def adapt_to_emotional_feedback (playlist : DynamicPlaylist)
    (feedback : Feedback) : DynamicPlaylist × Option String :=
  let emotional_response := feedback.emotional_response.getD {}
  if emotional_response.overall_satisfaction.getD 0.5 < 0.4 then
    let new_route := create_emotional_route emotional_response.current_state
      none playlist.route.total_duration playlist.user_preferences
    let playlist1 := { playlist with route := new_route }
    match playlist.tracks with
    | _ :: _ => (playlist1, some attributeErrorTrackGet)
    | [] =>
      match select_tracks_for_route new_route [] playlist.user_preferences with
      | .error e => (playlist1, some e)
      | .ok new_tracks => ({ playlist1 with tracks := new_tracks }, none)
  else (playlist, none)

/-- Python `int(x)` on a float: truncation toward zero. -/
noncomputable def pyInt (x : ℝ) : ℤ :=
  if 0 ≤ x then ⌊x⌋ else -⌊-x⌋

/-- `PlaylistGenerationEngine._adapt_to_completion_patterns`: with a low
completion rate, shrink the target duration by 30 percent and re-run the
duration adjuster (whose append branch can still raise `NameError`); on
success both the track list and the route duration are updated. -/
noncomputable def adapt_to_completion_patterns (playlist : DynamicPlaylist)
    (feedback : Feedback) : DynamicPlaylist × Option String :=
  if feedback.completion_rate.getD 1 < 0.5 then
    let target_duration := pyInt (playlist.route.total_duration * 0.7)
    match adjust_playlist_duration playlist.tracks (target_duration : ℝ)
        playlist.tracks with
    | .error e => (playlist, some e)
    | .ok new_tracks =>
      ({ playlist with
          tracks := new_tracks
          route := { playlist.route with total_duration := (target_duration : ℝ) } },
        none)
  else (playlist, none)

/-- `PlaylistGenerationEngine.adapt_playlist`.  An id that is not in
`playlist_cache` raises `ValueError` before anything is touched, so the
cache is returned unchanged with the error.  Otherwise feedback is recorded
in the playlist's play history, the branch for the feedback type runs (its
own exceptions propagate, leaving the partially updated playlist in the
cache), `updated_at` is refreshed and the updated playlist returned. -/
noncomputable def adapt_playlist (cache : PlaylistCache) (playlist_id : String)
    (feedback : Feedback) (now : ℕ) :
    PlaylistCache × Except String DynamicPlaylist :=
  match cacheGet cache playlist_id with
  | none => (cache, .error ("Playlist " ++ playlist_id ++ " not found"))
  | some playlist =>
    let playlist1 :=
      { playlist with play_history := playlist.play_history ++ [(now, feedback)] }
    let adapted :=
      match feedback.type with
      | some "skip_frequency" => adapt_to_skips playlist1 feedback
      | some "emotional_response" => adapt_to_emotional_feedback playlist1 feedback
      | some "completion_rate" => adapt_to_completion_patterns playlist1 feedback
      | _ => (playlist1, none)
    match adapted.2 with
    | some e => (cacheSet cache playlist_id adapted.1, .error e)
    | none =>
      let final := { adapted.1 with updated_at := now }
      (cacheSet cache playlist_id final, .ok final)

/-- A three-minute sample track (concrete test fixture). -/
noncomputable def sampleTrack : PlaylistTrack :=
  { id := "s1", title := "Sample", artist := "Artist S", duration := 180,
    emotional_profile := ⟨0, 0.5, 0.5, 0.5, 0.5, 0.5⟩ }

/-- A two-hour track (concrete test fixture). -/
noncomputable def longTrackA : PlaylistTrack :=
  { id := "a", title := "Long A", artist := "Artist A", duration := 7200,
    emotional_profile := ⟨0, 0.5, 0.5, 0.5, 0.5, 0.5⟩ }

/-- A second two-hour track (concrete test fixture). -/
noncomputable def longTrackB : PlaylistTrack :=
  { id := "b", title := "Long B", artist := "Artist B", duration := 7200,
    emotional_profile := ⟨0, 0.2, 0.8, 0.5, 0.5, 0.5⟩ }

/-- A third two-hour track (concrete test fixture). -/
noncomputable def longTrackC : PlaylistTrack :=
  { id := "c", title := "Long C", artist := "Artist C", duration := 7200,
    emotional_profile := ⟨0, 0.8, 0.2, 0.5, 0.5, 0.5⟩ }

/-- A route with no waypoints whose endpoints differ (concrete fixture). -/
noncomputable def routeNoWaypoints : MoodRoute :=
  { start_point := ⟨0, 0, 0, 0, 0, 0⟩
    end_point := ⟨1, 1, 1, 1, 1, 1⟩
    waypoints := []
    total_duration := 30
    estimated_impact := 0.5 }

/-- The same endpoints with one interior waypoint (concrete fixture). -/
noncomputable def routeOneWaypoint : MoodRoute :=
  { start_point := ⟨0, 0, 0, 0, 0, 0⟩
    end_point := ⟨1, 1, 1, 1, 1, 1⟩
    waypoints := [⟨1/2, 1/2, 1/2, 1/2, 1/2, 1/2⟩]
    total_duration := 30
    estimated_impact := 0.5 }

/-- A user emotion whose valence is far outside the declared range. -/
noncomputable def overdriveEmotion : EmotionDict := { valence := some 5 }

/-- The user emotion of the energizing scenario. -/
noncomputable def energizingEmotion : EmotionDict :=
  { valence := some 0.2, arousal := some 0.3 }

/-- The preferences of the energizing scenario. -/
noncomputable def energizingPrefs : Preferences := { journey_type := some "energizing" }

/-- A target emotion equal to the default start point (concrete fixture). -/
noncomputable def neutralTarget : EmotionDict :=
  { valence := some 0.5, arousal := some 0.5, dominance := some 0.5,
    depth := some 0.5, resonance := some 0.7 }

/-- Preferences asking for a single waypoint (concrete fixture). -/
def complexityOnePrefs : Preferences := { complexity := some 1 }

/-- Preferences asking for no waypoints at all (concrete fixture). -/
def complexityZeroPrefs : Preferences := { complexity := some 0 }

/-- A flat route between identical neutral points (concrete fixture). -/
noncomputable def flatRoute : MoodRoute :=
  { start_point := ⟨0, 0.5, 0.5, 0.5, 0.5, 0.5⟩
    end_point := ⟨1, 0.5, 0.5, 0.5, 0.5, 0.5⟩
    waypoints := []
    total_duration := 30
    estimated_impact := 0.5 }

/-- The flat route with a one-minute target duration (concrete fixture). -/
noncomputable def flatRouteShort : MoodRoute :=
  { start_point := ⟨0, 0.5, 0.5, 0.5, 0.5, 0.5⟩
    end_point := ⟨1, 0.5, 0.5, 0.5, 0.5, 0.5⟩
    waypoints := []
    total_duration := 1
    estimated_impact := 0.5 }

/-- First raw candidate of the two-candidate fixture. -/
def dualTrackX : TrackData := { id := some "x", artist := some "Artist X" }

/-- Second raw candidate of the two-candidate fixture. -/
def dualTrackY : TrackData := { id := some "y", artist := some "Artist Y" }

/-- A single ten-minute raw candidate (concrete fixture). -/
noncomputable def soloTrackData : TrackData :=
  { id := some "solo", artist := some "Artist A", duration_ms := some 600000 }

/-- The ethics gate always permits `create_emotional_route` on the context the
router builds: that context has no message and the action appears in none of
the gated action lists. -/
theorem gate_route_permitted :
    (evaluate_action "create_emotional_route" routeGateContext).1 = true := rfl

/-- The ethics gate always permits `generate_playlist` on the context the
engine builds. -/
theorem gate_playlist_permitted :
    (evaluate_action "generate_playlist" playlistGateContext).1 = true := rfl

/-- C7: `distance_to` equals the stated Euclidean formula over valence,
arousal, dominance and depth (timestamp and resonance excluded), is total and
pure by construction, is symmetric, and vanishes on the diagonal. -/
theorem C7_distance_to_formula (a b : EmotionalPoint) :
    a.distance_to b =
      Real.sqrt ((a.valence - b.valence) ^ 2 + (a.arousal - b.arousal) ^ 2 +
        (a.dominance - b.dominance) ^ 2 + (a.depth - b.depth) ^ 2) ∧
    a.distance_to b = b.distance_to a ∧
    a.distance_to a = 0 := by
  refine ⟨rfl, ?_, ?_⟩
  · unfold EmotionalPoint.distance_to
    rw [show (a.valence - b.valence) ^ 2 + (a.arousal - b.arousal) ^ 2 +
        (a.dominance - b.dominance) ^ 2 + (a.depth - b.depth) ^ 2 =
        (b.valence - a.valence) ^ 2 + (b.arousal - a.arousal) ^ 2 +
        (b.dominance - a.dominance) ^ 2 + (b.depth - a.depth) ^ 2 by ring]
  · unfold EmotionalPoint.distance_to
    simp

/-- C8: adapting a playlist id that is not in the cache returns the
`Playlist ... not found` error and leaves the cache untouched. -/
theorem C8_adapt_unknown_id_errors (cache : PlaylistCache)
    (playlist_id : String) (feedback : Feedback) (now : ℕ)
    (h : cacheGet cache playlist_id = none) :
    adapt_playlist cache playlist_id feedback now =
      (cache, .error ("Playlist " ++ playlist_id ++ " not found")) := by
  unfold adapt_playlist
  rw [h]

/-- Witness for C8 at the empty cache and the id `unknown-id`. -/
theorem C8_witness :
    adapt_playlist [] "unknown-id" {} 0 =
      ([], .error "Playlist unknown-id not found") :=
  C8_adapt_unknown_id_errors [] "unknown-id" {} 0 rfl

/-- C3 (code bug): on a playlist below the target duration the append branch
of `_adjust_playlist_duration` is entered and immediately raises `NameError`,
because `dynamic_playlist.py` never imports numpy yet calls `np.mean`; shown
here on the empty playlist with a 30 minute target and a non-empty pool. -/
theorem C3_append_branch_raises_name_error :
    adjust_playlist_duration [] 30 [sampleTrack] = .error nameErrorNp := by
  unfold adjust_playlist_duration
  norm_num [currentMinutes, sumDuration]

/-- When every waypoint timestamp is at most `t`, the bracket scan consumes
the whole list: `before` ends at the last waypoint (or the initial point for
an empty list) and `after` stays `None`. -/
theorem findBracket_all_le (b : EmotionalPoint) (ws : List EmotionalPoint)
    (t : ℝ) (h : ∀ w ∈ ws, w.timestamp ≤ t) :
    findBracket b ws t = (ws.getLastD b, none) := by
  induction ws generalizing b with
  | nil => rfl
  | cons w rest ih =>
    unfold findBracket
    rw [if_pos (h w (List.mem_cons_self w rest))]
    rw [ih w (fun x hx => h x (List.mem_cons_of_mem w hx))]
    rw [List.getLastD_cons]

/-- The last element with a default is a member of any non-empty list. -/
theorem getLastD_mem_of_ne_nil {α : Type} (l : List α) (d : α) (h : l ≠ []) :
    l.getLastD d ∈ l := by
  induction l generalizing d with
  | nil => exact absurd rfl h
  | cons a rest ih =>
    rw [List.getLastD_cons]
    cases hr : rest with
    | nil => simp [hr]
    | cons b tail =>
      have := ih a (by simp [hr])
      exact List.mem_cons_of_mem a (hr ▸ this)

/-- C2 (amended): on a route whose start/end timestamps are 0 and 1, when the
waypoint list is non-empty and every waypoint timestamp lies strictly between
0 and 1 (so in particular none sits at 0.0 or 1.0), `get_emotional_at`
reproduces the start point at 0 and the end point at 1; with an *empty*
waypoint list, however, the source returns the start point for every
timestamp, including 1. -/
theorem C2_get_emotional_at_endpoints (r : MoodRoute)
    (hs : r.start_point.timestamp = 0) (he : r.end_point.timestamp = 1) :
    (r.waypoints = [] → ∀ t, r.get_emotional_at t = r.start_point) ∧
    (r.waypoints ≠ [] →
      (∀ w ∈ r.waypoints, 0 < w.timestamp ∧ w.timestamp < 1) →
      r.get_emotional_at 0 = r.start_point ∧
      r.get_emotional_at 1 = r.end_point) := by
  constructor
  · intro hnil t
    unfold MoodRoute.get_emotional_at
    rw [hnil]
  · intro hne hw
    obtain ⟨w, rest, hcons⟩ : ∃ w rest, r.waypoints = w :: rest := by
      cases hwp : r.waypoints with
      | nil => exact absurd hwp hne
      | cons a b => exact ⟨a, b, rfl⟩
    have hw0 : 0 < w.timestamp := (hw w (by rw [hcons]; exact List.mem_cons_self w rest)).1
    constructor
    · unfold MoodRoute.get_emotional_at
      rw [hcons]
      dsimp only
      have hbr : findBracket r.start_point (w :: rest) 0 = (r.start_point, some w) := by
        unfold findBracket
        rw [if_neg (by linarith)]
      rw [hbr]
      have hne2 : r.start_point.timestamp ≠ w.timestamp := by
        rw [hs]; exact ne_of_lt hw0
      simp only [Option.getD_some]
      rw [if_neg hne2]
      ext <;> simp [hs]
    · unfold MoodRoute.get_emotional_at
      rw [hcons]
      dsimp only
      have hall : ∀ x ∈ w :: rest, x.timestamp ≤ (1 : ℝ) := by
        intro x hx
        exact le_of_lt (hw x (by rw [hcons]; exact hx)).2
      rw [findBracket_all_le r.start_point (w :: rest) 1 hall]
      set b := (w :: rest).getLastD r.start_point with hb
      have hbmem : b ∈ w :: rest := getLastD_mem_of_ne_nil _ _ (by simp)
      have hblt : b.timestamp < 1 := (hw b (by rw [hcons]; exact hbmem)).2
      have hne2 : b.timestamp ≠ r.end_point.timestamp := by
        rw [he]; exact ne_of_lt hblt
      simp only [Option.getD_none]
      rw [if_neg hne2]
      have hdiv : (1 - b.timestamp) / (r.end_point.timestamp - b.timestamp) = 1 := by
        rw [he]
        exact div_self (by linarith)
      rw [hdiv]
      refine EmotionalPoint.ext he.symm ?_ ?_ ?_ ?_ ?_ <;> ring

/-- Witness for C2 on concrete routes: with one interior waypoint the
endpoints are reproduced; with no waypoints every query returns the start
point. -/
theorem C2_witness :
    routeOneWaypoint.get_emotional_at 0 = routeOneWaypoint.start_point ∧
    routeOneWaypoint.get_emotional_at 1 = routeOneWaypoint.end_point ∧
    routeNoWaypoints.get_emotional_at (1/2) = routeNoWaypoints.start_point := by
  obtain ⟨h1, h2⟩ := C2_get_emotional_at_endpoints routeOneWaypoint rfl rfl
  obtain ⟨h3, h4⟩ := h2 (by simp [routeOneWaypoint])
    (by
      intro x hx
      simp only [routeOneWaypoint] at hx
      rw [List.mem_singleton] at hx
      rw [hx]
      norm_num)
  exact ⟨h3, h4,
    (C2_get_emotional_at_endpoints routeNoWaypoints rfl rfl).1 rfl (1/2)⟩

/-- Counterexample for C2 as stated: a route with an empty waypoint list (so
certainly no waypoint at timestamp 0.0 or 1.0) on which `get_emotional_at`
at 1.0 does not return the end point — the source short-circuits to the
start point whenever the list is empty. -/
theorem C2_counterexample :
    routeNoWaypoints.waypoints = [] ∧
    routeNoWaypoints.get_emotional_at 1 ≠ routeNoWaypoints.end_point := by
  refine ⟨rfl, ?_⟩
  intro h
  have hv := congrArg EmotionalPoint.valence h
  simp only [MoodRoute.get_emotional_at, routeNoWaypoints] at hv
  norm_num at hv

/-- Evaluation of the energizing-scenario end point: the start point is
(0.2, 0.3, 0.5, 0.5, 0.7) and the energizing nudges land at
(0.4, 0.6, 0.6, 0.5, 0.8). -/
theorem energizing_endpoint_eval :
    (create_emotional_route energizingEmotion none 30 energizingPrefs).end_point =
      ⟨1, 0.4, 0.6, 0.6, 0.5, 0.8⟩ := by
  unfold create_emotional_route
  rw [gate_route_permitted]
  norm_num [energizingEmotion, energizingPrefs, generate_meaningful_endpoint]

/-- Evaluation of the energizing-scenario arc: the valence delta is 0.2 and
the arousal delta is exactly 0.3, so every cascade test fails (0.3 is not
strictly greater than 0.3) and the arc is `wavy`. -/
theorem energizing_arc_eval :
    (create_emotional_route energizingEmotion none 30 energizingPrefs).arc_type =
      EmotionalArc.wavy := by
  unfold create_emotional_route
  rw [gate_route_permitted]
  norm_num [energizingEmotion, energizingPrefs, generate_meaningful_endpoint,
    determine_arc_type, abs_lt]

/-- Counterexample for C6 as stated: in the energizing scenario
(valence 0.2, arousal 0.3, journey_type energizing, duration 30) the arc
classifies as `wavy`, not `ascending` or `resolution` — the arousal delta is
exactly 0.3 and the cascade tests use strict comparisons. -/
theorem C6_counterexample :
    (create_emotional_route energizingEmotion none 30 energizingPrefs).arc_type =
        EmotionalArc.wavy ∧
    EmotionalArc.wavy ≠ EmotionalArc.ascending ∧
    EmotionalArc.wavy ≠ EmotionalArc.resolution :=
  ⟨energizing_arc_eval, by decide, by decide⟩

/-- C6 (amended): in the energizing scenario the end point never decreases
the start valence and arousal — they land at 0.4 and 0.6 respectively — but
the arc classifies as `wavy` (not `ascending` or `resolution`, since the
arousal delta hits the 0.3 threshold without exceeding it). -/
theorem C6_energizing_scenario :
    (0.2 : ℝ) ≤
      (create_emotional_route energizingEmotion none 30 energizingPrefs).end_point.valence ∧
    (0.3 : ℝ) ≤
      (create_emotional_route energizingEmotion none 30 energizingPrefs).end_point.arousal ∧
    (create_emotional_route energizingEmotion none 30 energizingPrefs).arc_type =
      EmotionalArc.wavy := by
  refine ⟨?_, ?_, energizing_arc_eval⟩ <;> rw [energizing_endpoint_eval] <;> norm_num

/-- One argmin step either moves the best index to the scanned index or
leaves the accumulator unchanged. -/
theorem removalStep_fst_cases (ts : List PlaylistTrack) (acc : ℕ × Option ℝ)
    (i : ℕ) : (removalStep ts acc i).1 = i ∨ removalStep ts acc i = acc := by
  unfold removalStep
  rcases acc with ⟨j, _ | best⟩
  · left; rfl
  · dsimp only
    split
    · left; rfl
    · right; rfl

/-- Bounds for the argmin fold over an index list whose members all lie in
the interior index range. -/
theorem removalFold_aux (ts : List PlaylistTrack) (l : List ℕ) :
    ∀ acc : ℕ × Option ℝ, (∀ i ∈ l, 1 ≤ i ∧ i + 2 ≤ ts.length) →
    1 ≤ acc.1 → acc.1 + 2 ≤ ts.length →
    1 ≤ (l.foldl (removalStep ts) acc).1 ∧
      (l.foldl (removalStep ts) acc).1 + 2 ≤ ts.length := by
  induction l with
  | nil => intro acc _ h1 h2; exact ⟨h1, h2⟩
  | cons a rest ih =>
    intro acc hl h1 h2
    rw [List.foldl_cons]
    have ha := hl a (List.mem_cons_self a rest)
    rcases removalStep_fst_cases ts acc a with hc | hc
    · exact ih _ (fun i hi => hl i (List.mem_cons_of_mem a hi))
        (by rw [hc]; exact ha.1) (by rw [hc]; exact ha.2)
    · exact ih _ (fun i hi => hl i (List.mem_cons_of_mem a hi))
        (by rw [hc]; exact h1) (by rw [hc]; exact h2)

/-- With at least three tracks the argmin scan lands on an interior index:
at least 1 and at most `length - 2`. -/
theorem removalFold_bounds (ts : List PlaylistTrack) (h3 : 3 ≤ ts.length) :
    1 ≤ (removalFold ts).1 ∧ (removalFold ts).1 + 2 ≤ ts.length := by
  unfold removalFold
  have hsplit : ts.length - 2 = (ts.length - 3) + 1 := by omega
  rw [hsplit, List.range'_succ, List.foldl_cons]
  have hstep : removalStep ts (0, none) 1 =
      (1, some ((ts.getD 2 default).emotional_profile.distance_to
        (ts.getD 0 default).emotional_profile)) := rfl
  rw [hstep]
  refine removalFold_aux ts _ _ ?_ (by norm_num) (by omega)
  intro i hi
  have := (List.mem_range'_1).1 hi
  omega

/-- Erasing at a positive index keeps the head. -/
theorem head?_eraseIdx_pos {α : Type} (l : List α) (i : ℕ) (h : 1 ≤ i) :
    (l.eraseIdx i).head? = l.head? := by
  cases l with
  | nil => simp
  | cons a t =>
    obtain ⟨j, rfl⟩ : ∃ j, i = j + 1 := ⟨i - 1, by omega⟩
    rw [List.eraseIdx_cons_succ, List.head?_cons, List.head?_cons]

/-- Erasing strictly before the final index keeps the last element. -/
theorem getLast?_eraseIdx_lt {α : Type} (l : List α) (i : ℕ)
    (h : i + 1 < l.length) : (l.eraseIdx i).getLast? = l.getLast? := by
  induction l generalizing i with
  | nil => simp at h
  | cons a t ih =>
    cases i with
    | zero =>
      cases t with
      | nil => simp at h
      | cons b t2 => rw [List.eraseIdx_cons_zero, List.getLast?_cons_cons]
    | succ j =>
      rw [List.eraseIdx_cons_succ]
      have hj : j + 1 < t.length := by
        simp only [List.length_cons] at h; omega
      have hrec := ih j hj
      have hne : t.eraseIdx j ≠ [] := by
        intro hnil
        have := List.length_eraseIdx t j
        rw [hnil] at this
        simp only [List.length_nil] at this
        have hjlt : j < t.length := by omega
        rw [if_pos hjlt] at this
        omega
      cases h1 : t.eraseIdx j with
      | nil => exact absurd h1 hne
      | cons c t3 =>
        cases t with
        | nil => simp at hj
        | cons b t4 =>
          rw [List.getLast?_cons_cons, List.getLast?_cons_cons, ← h1, hrec]

/-- With exactly two tracks the scanned range `range(1, 1)` is empty and the
argmin index stays at its initial value 0. -/
theorem removalFold_two (ts : List PlaylistTrack) (h : ts.length = 2) :
    (removalFold ts).1 = 0 := by
  unfold removalFold
  rw [h]
  rfl

/-- On any list with more than one element the argmin index is in range. -/
theorem removalFold_lt (ts : List PlaylistTrack) (h2 : 1 < ts.length) :
    (removalFold ts).1 < ts.length := by
  rcases Nat.lt_or_ge ts.length 3 with h3 | h3
  · have h2' : ts.length = 2 := by omega
    rw [removalFold_two ts h2']
    omega
  · have := removalFold_bounds ts h3
    omega

/-- The removal loop stops exactly when the playlist is at or under target or
a single track remains. -/
theorem removeLoop_post (ts : List PlaylistTrack) (target : ℝ) :
    (currentMinutes (removeLoop ts target) : ℝ) ≤ target ∨
      (removeLoop ts target).length ≤ 1 := by
  suffices h : ∀ n (ts : List PlaylistTrack), ts.length ≤ n →
      (currentMinutes (removeLoop ts target) : ℝ) ≤ target ∨
        (removeLoop ts target).length ≤ 1 by
    exact h ts.length ts le_rfl
  intro n
  induction n with
  | zero =>
    intro ts hlen
    rw [removeLoop]
    split
    · next hcond => omega
    · next hcond =>
      right
      omega
  | succ n ih =>
    intro ts hlen
    rw [removeLoop]
    split
    · next hcond =>
      have hlt : (removalFold ts).1 < ts.length := removalFold_lt ts hcond.2
      apply ih
      rw [List.length_eraseIdx, if_pos hlt]
      omega
    · next hcond =>
      rcases not_and_or.1 hcond with hc | hc
      · left; linarith [not_lt.1 hc]
      · right; omega

/-- C9 (amended): while at least three tracks remain, each removal step of
`_adjust_playlist_duration` erases an interior track — head and last survive
and the length drops by one; but when exactly two tracks remain the scanned
range `range(1, len-1)` is empty, the best index stays at its initial value
0, and the *first* track is popped.  The loop stops exactly when the total is
at or under target or a single track remains. -/
theorem C9_removal_interior (tracks : List PlaylistTrack) (target : ℝ) :
    (3 ≤ tracks.length →
      (tracks.eraseIdx (removalFold tracks).1).head? = tracks.head? ∧
      (tracks.eraseIdx (removalFold tracks).1).getLast? = tracks.getLast? ∧
      (tracks.eraseIdx (removalFold tracks).1).length = tracks.length - 1) ∧
    (tracks.length = 2 → tracks.eraseIdx (removalFold tracks).1 = tracks.tail) ∧
    ((currentMinutes (removeLoop tracks target) : ℝ) ≤ target ∨
      (removeLoop tracks target).length ≤ 1) := by
  refine ⟨?_, ?_, removeLoop_post tracks target⟩
  · intro h3
    obtain ⟨hb1, hb2⟩ := removalFold_bounds tracks h3
    refine ⟨head?_eraseIdx_pos _ _ hb1, getLast?_eraseIdx_lt _ _ (by omega), ?_⟩
    rw [List.length_eraseIdx, if_pos (by omega)]
  · intro h2
    rw [removalFold_two tracks h2]
    cases tracks with
    | nil => rfl
    | cons a t => rw [List.eraseIdx_cons_zero, List.tail_cons]

/-- Witness for C9 on concrete lists: with three tracks the interior argmin
erase keeps head and last and shortens by one; with two tracks it pops the
head; the loop postcondition holds on the two-track list. -/
theorem C9_witness :
    (([longTrackA, longTrackB, longTrackC].eraseIdx
        (removalFold [longTrackA, longTrackB, longTrackC]).1).head? =
          some longTrackA ∧
      ([longTrackA, longTrackB, longTrackC].eraseIdx
        (removalFold [longTrackA, longTrackB, longTrackC]).1).length = 2) ∧
    [longTrackA, longTrackB].eraseIdx
      (removalFold [longTrackA, longTrackB]).1 = [longTrackB] ∧
    ((currentMinutes (removeLoop [longTrackA, longTrackB] 30) : ℝ) ≤ 30 ∨
      (removeLoop [longTrackA, longTrackB] 30).length ≤ 1) := by
  have h3 := (C9_removal_interior [longTrackA, longTrackB, longTrackC] 30).1
    (by simp)
  have h2 := (C9_removal_interior [longTrackA, longTrackB] 30).2.1 (by simp)
  refine ⟨⟨?_, ?_⟩, ?_, (C9_removal_interior [longTrackA, longTrackB] 30).2.2⟩
  · rw [h3.1]; rfl
  · rw [h3.2.2]; rfl
  · rw [h2]; rfl

/-- Counterexample for C9 as stated: a list of two long tracks above target
enters the removal loop, whose argmin scan over the empty interior range
leaves the initial index 0 — and the pop removes the *first* track, which the
claim says is never removed. -/
theorem C9_counterexample :
    adjust_playlist_duration [longTrackA, longTrackB] 30 [] =
      .ok [longTrackB] ∧ longTrackA ≠ longTrackB := by
  constructor
  · unfold adjust_playlist_duration
    have hcur : currentMinutes [longTrackA, longTrackB] = 240 := by
      unfold currentMinutes sumDuration longTrackA longTrackB
      decide
    rw [hcur]
    rw [if_neg (by norm_num), if_pos (by norm_num)]
    have hstep1 : removeLoop [longTrackA, longTrackB] 30 =
        removeLoop [longTrackB] 30 := by
      rw [removeLoop]
      rw [dif_pos ⟨by rw [hcur]; norm_num, by norm_num⟩]
      rw [removalFold_two [longTrackA, longTrackB] (by rfl), List.eraseIdx_cons_zero]
    rw [hstep1]
    rw [removeLoop]
    rw [dif_neg (by norm_num)]
  · intro h
    have := congrArg PlaylistTrack.id h
    simp only [longTrackA, longTrackB] at this
    exact absurd this (by decide)

/-- A convex combination `b + r * (a - b)` with `r` in [0,1] stays inside any
interval containing both `b` and `a`. -/
theorem convex_bound (lo hi b a r : ℝ) (hlb : lo ≤ b) (hbh : b ≤ hi)
    (hla : lo ≤ a) (hah : a ≤ hi) (hr0 : 0 ≤ r) (hr1 : r ≤ 1) :
    lo ≤ b + r * (a - b) ∧ b + r * (a - b) ≤ hi := by
  constructor <;> nlinarith

/-- Specification of the bracket scan when the initial point is already at or
before `t`: the final `before` sits at or before `t` and is the initial point
or a waypoint; a returned `after` is a waypoint strictly past `t`. -/
theorem findBracket_spec (b : EmotionalPoint) (ws : List EmotionalPoint)
    (t : ℝ) (hb : b.timestamp ≤ t) :
    (findBracket b ws t).1.timestamp ≤ t ∧
    ((findBracket b ws t).1 = b ∨ (findBracket b ws t).1 ∈ ws) ∧
    (∀ w, (findBracket b ws t).2 = some w → w ∈ ws ∧ t < w.timestamp) := by
  induction ws generalizing b with
  | nil =>
    refine ⟨hb, Or.inl rfl, ?_⟩
    intro w hw
    simp [findBracket] at hw
  | cons w rest ih =>
    unfold findBracket
    by_cases hle : w.timestamp ≤ t
    · rw [if_pos hle]
      obtain ⟨h1, h2, h3⟩ := ih w hle
      refine ⟨h1, ?_, ?_⟩
      · rcases h2 with h | h
        · exact Or.inr (by rw [h]; exact List.mem_cons_self w rest)
        · exact Or.inr (List.mem_cons_of_mem w h)
      · intro x hx
        obtain ⟨hm, hlt⟩ := h3 x hx
        exact ⟨List.mem_cons_of_mem w hm, hlt⟩
    · rw [if_neg hle]
      refine ⟨hb, Or.inl rfl, ?_⟩
      intro x hx
      simp only [Option.some.injEq] at hx
      rw [← hx]
      exact ⟨List.mem_cons_self w rest, lt_of_not_le hle⟩

/-- Linear interpolation between two in-range emotional points, evaluated at
a timestamp between them, produces an in-range point. -/
theorem interp_point_inRange (bf af : EmotionalPoint) (t : ℝ)
    (hbf : inRange bf) (haf : inRange af) (ht0 : 0 ≤ t) (ht1 : t ≤ 1)
    (h1 : bf.timestamp ≤ t) (h2 : t ≤ af.timestamp)
    (hlt : bf.timestamp < af.timestamp) :
    inRange
      { timestamp := t
        valence := bf.valence + (t - bf.timestamp) /
          (af.timestamp - bf.timestamp) * (af.valence - bf.valence)
        arousal := bf.arousal + (t - bf.timestamp) /
          (af.timestamp - bf.timestamp) * (af.arousal - bf.arousal)
        dominance := bf.dominance + (t - bf.timestamp) /
          (af.timestamp - bf.timestamp) * (af.dominance - bf.dominance)
        depth := bf.depth + (t - bf.timestamp) /
          (af.timestamp - bf.timestamp) * (af.depth - bf.depth)
        resonance := bf.resonance + (t - bf.timestamp) /
          (af.timestamp - bf.timestamp) * (af.resonance - bf.resonance) } := by
  have hr0 : 0 ≤ (t - bf.timestamp) / (af.timestamp - bf.timestamp) :=
    div_nonneg (by linarith) (by linarith)
  have hr1 : (t - bf.timestamp) / (af.timestamp - bf.timestamp) ≤ 1 :=
    (div_le_one (by linarith)).2 (by linarith)
  obtain ⟨_, _, bv1, bv2, ba1, ba2, bd1, bd2, bp1, bp2, br1, br2⟩ := hbf
  obtain ⟨_, _, av1, av2, aa1, aa2, ad1, ad2, ap1, ap2, ar1, ar2⟩ := haf
  exact ⟨ht0, ht1,
    (convex_bound _ _ _ _ _ bv1 bv2 av1 av2 hr0 hr1).1,
    (convex_bound _ _ _ _ _ bv1 bv2 av1 av2 hr0 hr1).2,
    (convex_bound _ _ _ _ _ ba1 ba2 aa1 aa2 hr0 hr1).1,
    (convex_bound _ _ _ _ _ ba1 ba2 aa1 aa2 hr0 hr1).2,
    (convex_bound _ _ _ _ _ bd1 bd2 ad1 ad2 hr0 hr1).1,
    (convex_bound _ _ _ _ _ bd1 bd2 ad1 ad2 hr0 hr1).2,
    (convex_bound _ _ _ _ _ bp1 bp2 ap1 ap2 hr0 hr1).1,
    (convex_bound _ _ _ _ _ bp1 bp2 ap1 ap2 hr0 hr1).2,
    (convex_bound _ _ _ _ _ br1 br2 ar1 ar2 hr0 hr1).1,
    (convex_bound _ _ _ _ _ br1 br2 ar1 ar2 hr0 hr1).2⟩

/-- The route interpolation stays in range at every queried timestamp in
[0,1] for any route whose start (at timestamp 0), end (at timestamp 1) and
waypoints are all in range; no ordering assumption on the waypoint list is
needed. -/
theorem get_emotional_at_inRange (r : MoodRoute) (t : ℝ)
    (hs : r.start_point.timestamp = 0) (he : r.end_point.timestamp = 1)
    (hsr : inRange r.start_point) (her : inRange r.end_point)
    (hwr : ∀ w ∈ r.waypoints, inRange w)
    (ht0 : 0 ≤ t) (ht1 : t ≤ 1) : inRange (r.get_emotional_at t) := by
  unfold MoodRoute.get_emotional_at
  cases hwp : r.waypoints with
  | nil => exact hsr
  | cons w rest =>
    dsimp only
    have hbt : r.start_point.timestamp ≤ t := by rw [hs]; exact ht0
    obtain ⟨h1, h2, h3⟩ := findBracket_spec r.start_point (w :: rest) t hbt
    have hbfr : inRange (findBracket r.start_point (w :: rest) t).1 := by
      rcases h2 with h | h
      · rw [h]; exact hsr
      · exact hwr _ (by rw [hwp]; exact h)
    cases haf : (findBracket r.start_point (w :: rest) t).2 with
    | none =>
      simp only [Option.getD_none]
      by_cases heq :
          (findBracket r.start_point (w :: rest) t).1.timestamp =
            r.end_point.timestamp
      · rw [if_pos heq]; exact hbfr
      · rw [if_neg heq]
        have hle1 : t ≤ r.end_point.timestamp := by rw [he]; exact ht1
        have hlt : (findBracket r.start_point (w :: rest) t).1.timestamp <
            r.end_point.timestamp :=
          lt_of_le_of_ne (le_trans h1 hle1) heq
        exact interp_point_inRange _ _ t hbfr her ht0 ht1 h1 hle1 hlt
    | some af =>
      simp only [Option.getD_some]
      obtain ⟨hafm, haft⟩ := h3 af haf
      have hafr : inRange af := hwr af (by rw [hwp]; exact hafm)
      by_cases heq :
          (findBracket r.start_point (w :: rest) t).1.timestamp = af.timestamp
      · rw [if_pos heq]; exact hbfr
      · rw [if_neg heq]
        have hlt : (findBracket r.start_point (w :: rest) t).1.timestamp <
            af.timestamp := lt_of_le_of_lt h1 haft
        exact interp_point_inRange _ _ t hbfr hafr ht0 ht1 h1 (le_of_lt haft) hlt

/-- Every waypoint the router constructs is clamped into range, and its
timestamp `i/(n+1)` with `1 ≤ i ≤ n` lies strictly inside (0,1). -/
theorem create_waypoints_inRange (s e : EmotionalPoint) (arc : EmotionalArc)
    (prefs : Preferences) :
    ∀ w ∈ create_waypoints s e arc prefs, inRange w := by
  intro w hw
  unfold create_waypoints at hw
  rw [List.mem_map] at hw
  obtain ⟨i, hi, rfl⟩ := hw
  have hmem := (List.mem_range'_1).1 hi
  have h1i : 1 ≤ i := hmem.1
  have hin : i ≤ (prefs.complexity.getD 3).toNat := by omega
  have hn1 : 1 ≤ (prefs.complexity.getD 3).toNat := le_trans h1i hin
  unfold createWaypoint inRange
  have hnum : (0 : ℝ) ≤ (i : ℝ) := by positivity
  have hden : (0 : ℝ) < ((prefs.complexity.getD 3).toNat : ℝ) + 1 := by positivity
  have hfrac0 : (0 : ℝ) ≤ (i : ℝ) / (((prefs.complexity.getD 3).toNat : ℝ) + 1) :=
    div_nonneg hnum (le_of_lt hden)
  have hfrac1 : (i : ℝ) / (((prefs.complexity.getD 3).toNat : ℝ) + 1) ≤ 1 := by
    rw [div_le_one hden]
    have : (i : ℝ) ≤ ((prefs.complexity.getD 3).toNat : ℝ) := by
      exact_mod_cast hin
    linarith
  refine ⟨hfrac0, hfrac1, le_max_left _ _,
    max_le (by norm_num) (min_le_left _ _),
    le_max_left _ _, max_le (by norm_num) (min_le_left _ _),
    le_max_left _ _, max_le (by norm_num) (min_le_left _ _),
    le_max_left _ _, max_le (by norm_num) (min_le_left _ _),
    le_max_left _ _, max_le (by norm_num) (min_le_left _ _)⟩

/-- C1 (amended): route generation is total and every waypoint of every
route returned by `create_emotional_route` is clamped into its declared
range, whatever the input mappings; and `get_emotional_at` stays in range on
[0,1] for any route whose start (timestamp 0), end (timestamp 1) and
waypoints are in range.  The start and end points themselves, however, copy
the input mappings (or the journey nudges) without clamping, so they are only
in range when the inputs keep them there — see the counterexample. -/
theorem C1_route_ranges :
    (∀ (ue : EmotionDict) (te : Option EmotionDict) (d : ℝ)
        (prefs : Preferences),
      ∀ w ∈ (create_emotional_route ue te d prefs).waypoints, inRange w) ∧
    (∀ (r : MoodRoute) (t : ℝ),
      r.start_point.timestamp = 0 → r.end_point.timestamp = 1 →
      inRange r.start_point → inRange r.end_point →
      (∀ w ∈ r.waypoints, inRange w) →
      0 ≤ t → t ≤ 1 → inRange (r.get_emotional_at t)) := by
  constructor
  · intro ue te d prefs w hw
    unfold create_emotional_route at hw
    rw [gate_route_permitted] at hw
    rw [if_neg (by simp)] at hw
    exact create_waypoints_inRange _ _ _ _ w hw
  · exact get_emotional_at_inRange

/-- Counterexample for C1 as stated: a permitted call whose user emotion
carries valence 5 produces a route whose start point keeps valence 5 — no
clamping is applied to the start point, so a field lies far outside its
declared range. -/
theorem C1_counterexample :
    (create_emotional_route overdriveEmotion none 30 {}).start_point.valence = 5 ∧
    ¬ inRange (create_emotional_route overdriveEmotion none 30 {}).start_point := by
  have hstart : (create_emotional_route overdriveEmotion none 30 {}).start_point =
      ⟨0, 5, 0.5, 0.5, 0.5, 0.7⟩ := by
    unfold create_emotional_route
    rw [gate_route_permitted]
    rw [if_neg (by simp)]
    simp [overdriveEmotion]
  rw [hstart]
  refine ⟨rfl, ?_⟩
  intro h
  obtain ⟨_, _, _, hv, _⟩ := h
  norm_num at hv

/-- Concrete evaluation: defaults for the user emotion, a neutral explicit
target and complexity 1 produce the single clamped waypoint at timestamp
one half. -/
theorem route_waypoints_concrete_eval :
    (create_emotional_route {} (some neutralTarget) 30 complexityOnePrefs).waypoints =
      [⟨1/2, 0.5, 0.5, 0.5, 0.5, 0.7⟩] := by
  unfold create_emotional_route
  rw [gate_route_permitted, if_neg (by simp)]
  dsimp only
  unfold create_waypoints createWaypoint determine_arc_type
  norm_num [complexityOnePrefs, neutralTarget, abs_lt, List.range'_one]

/-- Witness for C1: the concrete waypoint produced under defaults with a
neutral target is in range, and interpolation on the concrete one-waypoint
route is in range at the midpoint. -/
theorem C1_witness :
    inRange (⟨1/2, 0.5, 0.5, 0.5, 0.5, 0.7⟩ : EmotionalPoint) ∧
    inRange (routeOneWaypoint.get_emotional_at (1/2)) := by
  constructor
  · exact C1_route_ranges.1 {} (some neutralTarget) 30 complexityOnePrefs _
      (by rw [route_waypoints_concrete_eval]; exact List.mem_singleton.2 rfl)
  · refine C1_route_ranges.2 routeOneWaypoint (1/2) rfl rfl ?_ ?_ ?_
      (by norm_num) (by norm_num)
    · unfold inRange routeOneWaypoint
      norm_num
    · unfold inRange routeOneWaypoint
      norm_num
    · intro w hw
      simp only [routeOneWaypoint] at hw
      rw [List.mem_singleton] at hw
      rw [hw]
      unfold inRange
      norm_num

/-- When `_select_best_track` returns a track, that track's artist count in
the existing playlist is strictly below the cap. -/
theorem select_best_track_artist_lt (scored : List (PlaylistTrack × ℝ))
    (existing : List PlaylistTrack) (prefs : Preferences) (tr : PlaylistTrack)
    (h : select_best_track scored existing prefs = some tr) :
    countArtist existing tr.artist < prefs.max_artist_tracks.getD 2 := by
  unfold select_best_track at h
  rw [Option.map_eq_some'] at h
  obtain ⟨p, hfind, hp⟩ := h
  have hpred := List.find?_some hfind
  rw [Bool.and_eq_true] at hpred
  have := of_decide_eq_true hpred.1
  rw [hp] at this
  exact this

/-- Appending one track raises exactly that artist's count by one. -/
theorem countArtist_append (acc : List PlaylistTrack) (tr : PlaylistTrack)
    (a : String) :
    countArtist (acc ++ [tr]) a =
      countArtist acc a + (if tr.artist = a then 1 else 0) := by
  unfold countArtist
  rw [List.filter_append, List.length_append]
  congr 1
  by_cases h : tr.artist = a
  · rw [if_pos h]
    simp [List.filter, h]
  · rw [if_neg h]
    simp [List.filter, h]

/-- The waypoint-selection loop preserves the artist cap: starting from an
accumulator within the cap, any successful result stays within the cap. -/
theorem selectLoop_counts (cands : List PlaylistTrack) (prefs : Preferences) :
    ∀ (pts : List EmotionalPoint) (i : ℕ) (acc out : List PlaylistTrack),
    (∀ a, countArtist acc a ≤ prefs.max_artist_tracks.getD 2) →
    selectLoop cands prefs pts i acc = .ok out →
    ∀ a, countArtist out a ≤ prefs.max_artist_tracks.getD 2 := by
  intro pts
  induction pts with
  | nil =>
    intro i acc out hinv h
    unfold selectLoop at h
    cases h
    exact hinv
  | cons pt rest ih =>
    intro i acc out hinv h
    unfold selectLoop at h
    dsimp only at h
    cases hsel : select_best_track
        (find_tracks_for_emotion cands pt prefs) acc prefs with
    | none =>
      rw [hsel] at h
      exact ih (i + 1) acc out hinv h
    | some tr =>
      rw [hsel] at h
      dsimp only at h
      split at h
      · refine ih (i + 1) (acc ++ [tr]) out ?_ h
        intro a
        rw [countArtist_append]
        by_cases ha : tr.artist = a
        · rw [if_pos ha]
          have := select_best_track_artist_lt _ _ _ _ hsel
          rw [ha] at this
          omega
        · rw [if_neg ha]
          have := hinv a
          omega
      · split at h
        · cases h
        · cases h

/-- Erasing an index never increases an artist count. -/
theorem countArtist_eraseIdx_le (l : List PlaylistTrack) (i : ℕ) (a : String) :
    countArtist (l.eraseIdx i) a ≤ countArtist l a :=
  List.Sublist.length_le (List.Sublist.filter _ (List.eraseIdx_sublist l i))

/-- The removal loop never increases an artist count. -/
theorem removeLoop_counts (ts : List PlaylistTrack) (target : ℝ) (a : String) :
    countArtist (removeLoop ts target) a ≤ countArtist ts a := by
  suffices h : ∀ n (ts : List PlaylistTrack), ts.length ≤ n →
      countArtist (removeLoop ts target) a ≤ countArtist ts a by
    exact h ts.length ts le_rfl
  intro n
  induction n with
  | zero =>
    intro ts hlen
    rw [removeLoop]
    split
    · next hcond => omega
    · next hcond => exact le_rfl
  | succ n ih =>
    intro ts hlen
    rw [removeLoop]
    split
    · next hcond =>
      have hlt : (removalFold ts).1 < ts.length := removalFold_lt ts hcond.2
      refine le_trans (ih _ ?_) (countArtist_eraseIdx_le ts _ a)
      rw [List.length_eraseIdx, if_pos hlt]
      omega
    · next hcond => exact le_rfl

/-- A successful duration adjustment never increases an artist count. -/
theorem adjust_counts (ts : List PlaylistTrack) (target : ℝ)
    (avail : List PlaylistTrack) (out : List PlaylistTrack) (a : String)
    (h : adjust_playlist_duration ts target avail = .ok out) :
    countArtist out a ≤ countArtist ts a := by
  unfold adjust_playlist_duration at h
  split at h
  · cases h
  · split at h
    · cases h
      exact removeLoop_counts ts target a
    · cases h
      exact le_rfl

/-- C4: any successful result of `_select_tracks_for_route` (including the
final duration-repair step) contains at most
`preferences["max_artist_tracks"]` (default 2) tracks by any single artist —
the selection step refuses candidates at the cap and the repair step only
removes tracks. -/
theorem C4_artist_diversity (route : MoodRoute) (avail : List TrackData)
    (prefs : Preferences) (out : List PlaylistTrack)
    (h : select_tracks_for_route route avail prefs = .ok out) :
    ∀ a, countArtist out a ≤ prefs.max_artist_tracks.getD 2 := by
  intro a
  unfold select_tracks_for_route at h
  dsimp only at h
  cases hsl : selectLoop (trackCandidates avail) prefs
      (route.start_point :: (route.waypoints ++ [route.end_point])) 0 [] with
  | error e => rw [hsl] at h; cases h
  | ok mid =>
    rw [hsl] at h
    have hmid := selectLoop_counts (trackCandidates avail) prefs _ 0 [] mid
      (fun x => by unfold countArtist; simp) hsl
    exact le_trans (adjust_counts mid route.total_duration _ out a h) (hmid a)

/-- Concrete evaluation: the single raw candidate wraps to a playlist track
with its own id, default title, artist and 600 seconds. -/
theorem cand_solo_eval :
    trackCandidates [soloTrackData] =
      [{ id := "solo", title := "Unknown Track", artist := "Artist A",
         duration := 600, audio_features := [],
         emotional_profile := ⟨0, 0.5, 0.5, 0.5, 0.5, 0.5⟩ }] := by
  unfold trackCandidates create_playlist_track soloTrackData
  norm_num [List.enum, List.enumFrom]
  decide

/-- Concrete evaluation: on the flat one-minute route with the single
candidate, the selection loop picks the track at the start point, skips it as
a duplicate at the end point, and the duration adjuster returns it
unchanged. -/
theorem select_solo_eval :
    select_tracks_for_route flatRouteShort [soloTrackData] {} =
      .ok [{ id := "solo", title := "Unknown Track", artist := "Artist A",
             duration := 600, audio_features := [],
             emotional_profile := ⟨0, 0.5, 0.5, 0.5, 0.5, 0.5⟩ }] := by
  unfold select_tracks_for_route
  rw [cand_solo_eval]
  have hf : Int.fdiv 600 60 = (10 : ℤ) := by decide
  norm_num [flatRouteShort, selectLoop, find_tracks_for_emotion,
    select_best_track, countArtist, List.insertionSort, List.orderedInsert,
    List.find?, adjust_playlist_duration, currentMinutes, sumDuration, hf]
  rw [removeLoop]
  rw [dif_neg (by norm_num)]

/-- Witness for C4: the successful concrete selection has one track by
`Artist A`, within the default cap of two. -/
theorem C4_witness :
    countArtist
      [{ id := "solo", title := "Unknown Track", artist := "Artist A",
         duration := 600, audio_features := [],
         emotional_profile := ⟨0, 0.5, 0.5, 0.5, 0.5, 0.5⟩ }] "Artist A" ≤ 2 :=
  C4_artist_diversity flatRouteShort [soloTrackData] {} _ select_solo_eval "Artist A"

/-- Concrete evaluation: the two raw candidates wrap to playlist tracks with
identical neutral profiles and distinct ids/artists. -/
theorem cand_dual_eval :
    trackCandidates [dualTrackX, dualTrackY] =
      [{ id := "x", title := "Unknown Track", artist := "Artist X",
         duration := 180, audio_features := [],
         emotional_profile := ⟨0, 0.5, 0.5, 0.5, 0.5, 0.5⟩ },
       { id := "y", title := "Unknown Track", artist := "Artist Y",
         duration := 180, audio_features := [],
         emotional_profile := ⟨0, 0.5, 0.5, 0.5, 0.5, 0.5⟩ }] := by
  unfold trackCandidates create_playlist_track dualTrackX dualTrackY
  norm_num [List.enum, List.enumFrom]
  decide

/-- The transition-notes helper itself produces exactly the claimed
`mood and energy transition` wording for the claimed thresholds. -/
theorem generate_transition_notes_format (a b : EmotionalPoint) :
    generate_transition_notes a b =
      (if b.valence - a.valence > 0.2 then "lifting"
       else if b.valence - a.valence < -0.2 then "deepening"
       else "maintaining") ++ " and " ++
      (if b.arousal - a.arousal > 0.2 then "energizing"
       else if b.arousal - a.arousal < -0.2 then "calming"
       else "steady") ++ " transition" := rfl

/-- C5 (code bug): whenever a second track is selected, attaching the
transition notes raises instead of producing the wording.  On a flat route
with two distinct candidates the loop selects the first track at index 0 and
the second at index 1, and then `_select_tracks_for_route` evaluates
`[route.start_point] + route.waypoints + [route.end_point][i-1]` — an
operator-precedence slip that indexes the one-element list `[end_point]` and
hands the concatenated *list* to `_generate_transition_notes`, which dies on
`from_emotion.valence` (an `AttributeError`; for an index of 2 or more it
would be an `IndexError` instead). -/
theorem C5_transition_notes_raise :
    select_tracks_for_route flatRoute [dualTrackX, dualTrackY] {} =
      .error attributeErrorListValence := by
  unfold select_tracks_for_route
  rw [cand_dual_eval]
  have h1 : decide ("Artist X" = "Artist Y") = false := by decide
  have h2 : decide ("x" = "y") = false := by decide
  have h3 : decide ("x" = "x") = true := by decide
  have h4 : decide ("Artist X" = "Artist X") = true := by decide
  norm_num [flatRoute, selectLoop, find_tracks_for_emotion,
    select_best_track, countArtist, List.insertionSort, List.orderedInsert,
    List.find?, scoreOrder, EmotionalPoint.distance_to, List.filter,
    h1, h2, h3, h4]

/-- C10: whenever `generate_playlist` takes the fallback path — the ethics
gate rejecting, or the broadly-caught internal exception from track selection
— the fallback playlist is returned to the caller but never inserted into
`playlist_cache`; consequently a later `adapt_playlist` on that playlist's id
(assuming the fresh uuid was not already a key) raises the not-found error,
even though the caller received a structurally valid playlist. -/
theorem C10_fallback_not_cached (cache : PlaylistCache)
    (fresh_id fallback_id : String) (ur : UserRequest) (ue : EmotionDict)
    (avail : List TrackData) (prefs : Preferences) (now now2 : ℕ)
    (fb : Feedback)
    (h : (evaluate_action "generate_playlist" playlistGateContext).1 = false ∨
      ∃ e, select_tracks_for_route
        (create_emotional_route ue ur.target_emotion
          (ur.duration_minutes.getD 60) prefs) avail prefs = .error e) :
    (generate_playlist cache fresh_id fallback_id ur ue avail prefs now).1 =
      cache ∧
    (generate_playlist cache fresh_id fallback_id ur ue avail prefs now).2 =
      create_fallback_playlist fallback_id avail now ∧
    (cacheGet cache fallback_id = none →
      adapt_playlist cache fallback_id fb now2 =
        (cache, .error ("Playlist " ++ fallback_id ++ " not found"))) := by
  have hadapt : cacheGet cache fallback_id = none →
      adapt_playlist cache fallback_id fb now2 =
        (cache, .error ("Playlist " ++ fallback_id ++ " not found")) := by
    intro hget
    unfold adapt_playlist
    rw [hget]
  unfold generate_playlist
  rcases h with h | ⟨e, he⟩
  · rw [if_pos h]
    exact ⟨rfl, rfl, hadapt⟩
  · rw [if_neg (by rw [gate_playlist_permitted]; simp)]
    dsimp only
    rw [he]
    exact ⟨rfl, rfl, hadapt⟩

/-- Concrete evaluation: with an empty candidate pool and no waypoints the
selection loop selects nothing and the duration adjuster, 0 minutes below the
60 minute target, raises the numpy `NameError` — an internal exception inside
`generate_playlist`'s broad `try`. -/
theorem select_empty_eval :
    select_tracks_for_route
      (create_emotional_route {} none 60 complexityZeroPrefs) []
      complexityZeroPrefs = .error nameErrorNp := by
  have hwp : (create_emotional_route {} none 60 complexityZeroPrefs).waypoints = [] := by
    unfold create_emotional_route
    rw [if_neg (by rw [gate_route_permitted]; simp)]
    dsimp only
    unfold create_waypoints
    norm_num [complexityZeroPrefs]
  have htd : (create_emotional_route {} none 60 complexityZeroPrefs).total_duration = 60 := by
    unfold create_emotional_route
    rw [if_neg (by rw [gate_route_permitted]; simp)]
  have hf0 : Int.fdiv 0 60 = (0 : ℤ) := by decide
  unfold select_tracks_for_route
  rw [hwp, htd]
  norm_num [trackCandidates, List.enum, List.enumFrom, selectLoop,
    find_tracks_for_emotion, select_best_track, List.insertionSort,
    List.find?, adjust_playlist_duration, currentMinutes, sumDuration, hf0]

/-- Witness for C10: on the concrete failing generation the cache stays
empty and adapting the fallback id raises the not-found error. -/
theorem C10_witness :
    (generate_playlist [] "gen-id" "fb-id" {} {} [] complexityZeroPrefs 0).1 = [] ∧
    adapt_playlist [] "fb-id" {} 1 =
      ([], .error "Playlist fb-id not found") := by
  have h := C10_fallback_not_cached [] "gen-id" "fb-id" {} {} []
    complexityZeroPrefs 0 1 {} (Or.inr ⟨nameErrorNp, select_empty_eval⟩)
  exact ⟨h.1, h.2.2 rfl⟩
